import Mathlib

/-!
Verification of the miowid optimizer suite
(`src/NeuralNetworks/code/implementation/optimizers.py`, with the legacy
duplicate in `src/NeuralNetworks/implementation/optimizers.py`).

The Python module implements five gradient-descent variants (plain
mini-batch, momentum, Adagrad, RMSProp, Adam) sharing a batch planner and
an epoch/shuffle loop over numpy arrays.  We embed the module at two
levels:

* a value-level embedding, where 1-D numpy arrays become `List ℚ` (for the
  algorithms using only field operations) or `List ℝ` (for the algorithms
  that take square roots), `int(...)` becomes truncation of an exact
  rational, numpy's 1-D broadcasting rules are modelled by `npZip`, the
  `AssertionError` / `ZeroDivisionError` / broadcast `ValueError` paths
  become `Except.error`, and the ambient `np.random.permutation` stream is
  an explicit argument `shuffle : ℕ → ℕ → List ℕ` (epoch index and `N` to
  the drawn index list);

* a store-level embedding for the aliasing/mutation claims, where numpy
  arrays live at addresses in an explicit `Store` and every numpy
  expression that allocates a fresh array is an `allocS` while the
  single in-place update in the module (`squared_gradients += ...` in
  `adagrad.optimize`) is a `writeS`.
-/

/-- Python `int(q)` on an exact rational: truncation toward zero. -/
def pyTrunc (q : ℚ) : ℤ :=
  if 0 ≤ q then ⌊q⌋ else ⌈q⌉

/-- `Optimizer.calculate_batch_size_and_iteration` (optimizers.py lines
33-45).  `batch_size` is typed `ℤ` (the Python `assert type(batch_size) is
int` is the typing discipline); a `batch_fraction` outside `(0, 1]`
triggers the `AssertionError` with the source's message; a computed or
supplied batch size of `0` makes `int(X.shape[0] / batch_size)` raise
`ZeroDivisionError`. -/
def calculate_batch_size_and_iteration (batch_size : ℤ)
    (batch_fraction : Option ℚ) (N : ℕ) : Except String (ℤ × ℤ) :=
  match batch_fraction with
  | some f =>
      if 0 < f ∧ f ≤ 1 then
        let bs := pyTrunc ((N : ℚ) * f)
        if bs = 0 then Except.error "ZeroDivisionError"
        else Except.ok (bs, pyTrunc ((N : ℚ) / (bs : ℚ)))
      else Except.error "batch_fraction must be between 0 and 1"
  | none =>
      if batch_size = 0 then Except.error "ZeroDivisionError"
      else Except.ok (batch_size, pyTrunc ((N : ℚ) / (batch_size : ℚ)))

/-- numpy elementwise binary operation on 1-D arrays with numpy's 1-D
broadcasting: equal lengths operate pointwise, a length-1 operand is
stretched, anything else raises `ValueError`. -/
def npZip {γ : Type} (f : γ → γ → γ) (a b : List γ) :
    Except String (List γ) :=
  if a.length = b.length then Except.ok (List.zipWith f a b)
  else
    match a, b with
    | a, [cb] => Except.ok (a.map (fun x => f x cb))
    | [ca], b => Except.ok (b.map (fun x => f ca x))
    | _, _ => Except.error "ValueError"

/-- numpy in-place `a += b` on 1-D arrays: `b` must broadcast into `a`'s
shape (equal length or length 1); a longer `b` cannot be written back into
`a` and raises `ValueError`. -/
def npAddInto {γ : Type} [Add γ] (a b : List γ) :
    Except String (List γ) :=
  if a.length = b.length then Except.ok (List.zipWith (· + ·) a b)
  else
    match b with
    | [cb] => Except.ok (a.map (fun x => x + cb))
    | _ => Except.error "ValueError"

/-- numpy fancy indexing `X[shuffled_idx]`: builds a fresh array whose
`k`-th row is row `shuffled_idx[k]` of `X`. -/
def reindex {γ : Type} [Inhabited γ] (idxs : List ℕ) (l : List γ) :
    List γ :=
  idxs.map (fun i => l.getD i default)

/-- Default for `batch_size` in `mini_batch_gradient_descent.optimize`
(optimizers.py line 58). -/
def mini_batch_default_batch_size : ℤ := 42

/-- Default for `batch_size` in `adam.optimize` (optimizers.py line 358). -/
def adam_default_batch_size : ℤ := 10

/-- `mini_batch_gradient_descent.optimize` (optimizers.py lines 50-97),
value level.  Rows of `X` and `y` are opaque to the optimizer, so they are
arbitrary inhabited types; the parameter vector is a 1-D `List ℚ`.  The
epoch loop re-permutes the working copies of `X` and `y` each epoch and
folds the update `current_solution - learning_rate * gradient` over the
contiguous batches. -/
def mini_batch_gradient_descent.optimize {α β : Type}
    [Inhabited α] [Inhabited β]
    (X : List α) (y : List β) (initial_solution : List ℚ)
    (calculate_gradient : List α → List β → List ℚ → List ℚ)
    (shuffle : ℕ → ℕ → List ℕ)
    (learning_rate : ℚ) (max_num_epoch : ℕ)
    (batch_size : ℤ) (batch_fraction : Option ℚ) :
    Except String (List ℚ) :=
  match calculate_batch_size_and_iteration batch_size batch_fraction
      X.length with
  | Except.error e => Except.error e
  | Except.ok (batch_size, iterations) =>
    let bs := batch_size.toNat
    (do
      let st ← (List.range max_num_epoch).foldlM
        (fun (st : List α × List β × List ℚ) e => do
          let (Xc, yc, current_solution) := st
          let N := Xc.length
          let shuffled_idx := shuffle e N
          let Xs := reindex shuffled_idx Xc
          let ys := reindex shuffled_idx yc
          let sol ← (List.range iterations.toNat).foldlM
            (fun cur idx => do
              let X_selected := (Xs.drop (idx * bs)).take bs
              let y_selected := (ys.drop (idx * bs)).take bs
              let gradient := calculate_gradient X_selected y_selected cur
              npZip (fun c g => c - g) cur
                (gradient.map (fun g => learning_rate * g)))
            current_solution
          pure (Xs, ys, sol))
        (X, y, initial_solution)
      pure st.2.2)

/-- `mini_batch_gradient_descent_with_momentum.optimize` (optimizers.py
lines 172-223), value level, additionally returning the final velocity
tensor (the source returns only `current_solution`; the paired state is
exposed for specification purposes). -/
def mini_batch_gradient_descent_with_momentum.optimizeState {α β : Type}
    [Inhabited α] [Inhabited β]
    (X : List α) (y : List β) (initial_solution : List ℚ)
    (calculate_gradient : List α → List β → List ℚ → List ℚ)
    (shuffle : ℕ → ℕ → List ℕ)
    (learning_rate : ℚ) (momentum_decay : ℚ) (max_num_epoch : ℕ)
    (batch_size : ℤ) (batch_fraction : Option ℚ) :
    Except String (List ℚ × List ℚ) :=
  match calculate_batch_size_and_iteration batch_size batch_fraction
      X.length with
  | Except.error e => Except.error e
  | Except.ok (batch_size, iterations) =>
    let bs := batch_size.toNat
    (do
      let st ← (List.range max_num_epoch).foldlM
        (fun (st : List α × List β × List ℚ × List ℚ) e => do
          let (Xc, yc, current_solution, momentum) := st
          let N := Xc.length
          let shuffled_idx := shuffle e N
          let Xs := reindex shuffled_idx Xc
          let ys := reindex shuffled_idx yc
          let (sol, mom) ← (List.range iterations.toNat).foldlM
            (fun (acc : List ℚ × List ℚ) idx => do
              let (cur, mom) := acc
              let X_selected := (Xs.drop (idx * bs)).take bs
              let y_selected := (ys.drop (idx * bs)).take bs
              let gradient := calculate_gradient X_selected y_selected cur
              let mom' ← npZip (fun a b => a - b)
                (mom.map (fun m => momentum_decay * m))
                (gradient.map (fun g => learning_rate * g))
              let cur' ← npZip (fun a b => a + b) cur mom'
              pure (cur', mom'))
            (current_solution, momentum)
          pure (Xs, ys, sol, mom))
        (X, y, initial_solution,
          List.replicate initial_solution.length (0 : ℚ))
      pure (st.2.2.1, st.2.2.2))

/-- `mini_batch_gradient_descent_with_momentum.optimize` as the source
returns it: the final solution only. -/
def mini_batch_gradient_descent_with_momentum.optimize {α β : Type}
    [Inhabited α] [Inhabited β]
    (X : List α) (y : List β) (initial_solution : List ℚ)
    (calculate_gradient : List α → List β → List ℚ → List ℚ)
    (shuffle : ℕ → ℕ → List ℕ)
    (learning_rate : ℚ) (momentum_decay : ℚ) (max_num_epoch : ℕ)
    (batch_size : ℤ) (batch_fraction : Option ℚ) :
    Except String (List ℚ) :=
  (mini_batch_gradient_descent_with_momentum.optimizeState X y
      initial_solution calculate_gradient shuffle learning_rate
      momentum_decay max_num_epoch batch_size batch_fraction).map
    (fun st => st.1)

/-- `adagrad.optimize` (optimizers.py lines 228-281), value level over `ℝ`
(the update takes a square root).  The accumulator update
`squared_gradients += gradient**2` is numpy's in-place add, which only
accepts a right operand that broadcasts into the accumulator's shape. -/
noncomputable def adagrad.optimize {α β : Type} [Inhabited α] [Inhabited β]
    (X : List α) (y : List β) (initial_solution : List ℝ)
    (calculate_gradient : List α → List β → List ℝ → List ℝ)
    (shuffle : ℕ → ℕ → List ℕ)
    (learning_rate : ℝ) (max_num_epoch : ℕ)
    (batch_size : ℤ) (batch_fraction : Option ℚ) (epsilon : ℝ) :
    Except String (List ℝ) :=
  match calculate_batch_size_and_iteration batch_size batch_fraction
      X.length with
  | Except.error e => Except.error e
  | Except.ok (batch_size, iterations) =>
    let bs := batch_size.toNat
    (do
      let st ← (List.range max_num_epoch).foldlM
        (fun (st : List α × List β × List ℝ × List ℝ) e => do
          let (Xc, yc, current_solution, squared_gradients) := st
          let N := Xc.length
          let shuffled_idx := shuffle e N
          let Xs := reindex shuffled_idx Xc
          let ys := reindex shuffled_idx yc
          let (sol, sq) ← (List.range iterations.toNat).foldlM
            (fun (acc : List ℝ × List ℝ) idx => do
              let (cur, sq) := acc
              let X_selected := (Xs.drop (idx * bs)).take bs
              let y_selected := (ys.drop (idx * bs)).take bs
              let gradient := calculate_gradient X_selected y_selected cur
              let sq' ← npAddInto sq (gradient.map (fun g => g ^ 2))
              let ratio ← npZip (fun a b => a / b)
                (gradient.map (fun g => learning_rate * g))
                (sq'.map (fun s => Real.sqrt s + epsilon))
              let cur' ← npZip (fun a b => a - b) cur ratio
              pure (cur', sq'))
            (current_solution, squared_gradients)
          pure (Xs, ys, sol, sq))
        (X, y, initial_solution,
          List.replicate initial_solution.length (0 : ℝ))
      pure st.2.2.1)

/-- `rmsprop.optimize` (optimizers.py lines 285-343), value level over
`ℝ`.  Unlike Adagrad the squared-gradient accumulator is rebound to a
fresh decayed array each step rather than updated in place. -/
noncomputable def rmsprop.optimize {α β : Type} [Inhabited α] [Inhabited β]
    (X : List α) (y : List β) (initial_solution : List ℝ)
    (calculate_gradient : List α → List β → List ℝ → List ℝ)
    (shuffle : ℕ → ℕ → List ℕ)
    (learning_rate : ℝ) (squared_gradient_decay : ℝ) (max_num_epoch : ℕ)
    (batch_size : ℤ) (batch_fraction : Option ℚ) (epsilon : ℝ) :
    Except String (List ℝ) :=
  match calculate_batch_size_and_iteration batch_size batch_fraction
      X.length with
  | Except.error e => Except.error e
  | Except.ok (batch_size, iterations) =>
    let bs := batch_size.toNat
    (do
      let st ← (List.range max_num_epoch).foldlM
        (fun (st : List α × List β × List ℝ × List ℝ) e => do
          let (Xc, yc, current_solution, squared_gradients) := st
          let N := Xc.length
          let shuffled_idx := shuffle e N
          let Xs := reindex shuffled_idx Xc
          let ys := reindex shuffled_idx yc
          let (sol, sq) ← (List.range iterations.toNat).foldlM
            (fun (acc : List ℝ × List ℝ) idx => do
              let (cur, sq) := acc
              let X_selected := (Xs.drop (idx * bs)).take bs
              let y_selected := (ys.drop (idx * bs)).take bs
              let gradient := calculate_gradient X_selected y_selected cur
              let sq' ← npZip (fun a b => a + b)
                (sq.map (fun s => squared_gradient_decay * s))
                (gradient.map (fun g =>
                  (1 - squared_gradient_decay) * g ^ 2))
              let ratio ← npZip (fun a b => a / b)
                (gradient.map (fun g => learning_rate * g))
                (sq'.map (fun s => Real.sqrt s + epsilon))
              let cur' ← npZip (fun a b => a - b) cur ratio
              pure (cur', sq'))
            (current_solution, squared_gradients)
          pure (Xs, ys, sol, sq))
        (X, y, initial_solution,
          List.replicate initial_solution.length (0 : ℝ))
      pure st.2.2.1)

/-- The gradient producer handed to `adam.optimize`: the source calls
`neural_network.calculate_and_extract_gradient(X_selected, y_selected,
current_solution, using_backpropagation)` (optimizers.py lines 402-404);
the network itself lives outside the optimizer module. -/
structure NeuralNetworkModel (α β : Type) where
  calculate_and_extract_gradient :
    List α → List β → List ℝ → Bool → List ℝ

/-- Adam's first-moment update `momentum = momentum_decay * momentum +
(1 - momentum_decay) * gradient` (optimizers.py line 405). -/
noncomputable def adam.momentum_update (momentum_decay : ℝ)
    (momentum gradient : List ℝ) : Except String (List ℝ) :=
  npZip (fun a b => a + b)
    (momentum.map (fun m => momentum_decay * m))
    (gradient.map (fun g => (1 - momentum_decay) * g))

/-- Adam's second-moment update `squared_gradients =
squared_gradient_decay * squared_gradients + (1 - squared_gradient_decay)
* gradient**2` (optimizers.py lines 406-409). -/
noncomputable def adam.squared_update (squared_gradient_decay : ℝ)
    (squared_gradients gradient : List ℝ) : Except String (List ℝ) :=
  npZip (fun a b => a + b)
    (squared_gradients.map (fun s => squared_gradient_decay * s))
    (gradient.map (fun g => (1 - squared_gradient_decay) * g ^ 2))

/-- Adam's bias correction `v / (1 - decay**counter)` (optimizers.py
lines 412-416): elementwise division of an accumulator by the scalar
`1 - decay^t`. -/
noncomputable def adam.bias_correction (decay : ℝ) (counter : ℕ)
    (v : List ℝ) : List ℝ :=
  v.map (fun m => m / (1 - decay ^ counter))

/-- `adam.optimize` (optimizers.py lines 347-426), value level over `ℝ`.
A permutation is still drawn each epoch (`shuffled_idx =
np.random.permutation(N)`, line 394) but the reindexing of `X` and `y` is
commented out in the source (line 395), so the draw is bound and never
used and the batches are contiguous slices of the caller-supplied row
order in every epoch.  The step `counter` increments once per mini-batch
across all epochs. -/
noncomputable def adam.optimize {α β : Type} [Inhabited α] [Inhabited β]
    (X : List α) (y : List β) (initial_solution : List ℝ)
    (neural_network : NeuralNetworkModel α β)
    (using_backpropagation : Bool)
    (shuffle : ℕ → ℕ → List ℕ)
    (learning_rate : ℝ) (momentum_decay : ℝ)
    (squared_gradient_decay : ℝ) (max_num_epoch : ℕ)
    (batch_size : ℤ) (batch_fraction : Option ℚ) (epsilon : ℝ) :
    Except String (List ℝ) :=
  match calculate_batch_size_and_iteration batch_size batch_fraction
      X.length with
  | Except.error e => Except.error e
  | Except.ok (batch_size, iterations) =>
    let bs := batch_size.toNat
    (do
      let st ← (List.range max_num_epoch).foldlM
        (fun (st : List ℝ × List ℝ × List ℝ × ℕ) i => do
          let (current_solution, momentum, squared_gradients, counter) := st
          let N := X.length
          let _shuffled_idx := shuffle i N
          (List.range iterations.toNat).foldlM
            (fun (acc : List ℝ × List ℝ × List ℝ × ℕ) idx => do
              let (cur, mom, sq, counter) := acc
              let X_selected := (X.drop (idx * bs)).take bs
              let y_selected := (y.drop (idx * bs)).take bs
              let gradient := neural_network.calculate_and_extract_gradient
                X_selected y_selected cur using_backpropagation
              let mom' ← adam.momentum_update momentum_decay mom gradient
              let sq' ← adam.squared_update squared_gradient_decay sq
                gradient
              let counter' := counter + 1
              let corrected_momentum :=
                adam.bias_correction momentum_decay counter' mom'
              let corrected_squared_gradients :=
                adam.bias_correction squared_gradient_decay counter' sq'
              let ratio ← npZip (fun a b => a / b)
                (corrected_momentum.map (fun m => learning_rate * m))
                (corrected_squared_gradients.map
                  (fun s => Real.sqrt s + epsilon))
              let cur' ← npZip (fun a b => a - b) cur ratio
              pure (cur', mom', sq', counter'))
            (current_solution, momentum, squared_gradients, counter))
        (initial_solution,
          List.replicate initial_solution.length (0 : ℝ),
          List.replicate initial_solution.length (0 : ℝ), 0)
      pure st.1)

/-- One per-parameter component of the Adagrad inner-loop update
(optimizers.py lines 275-279): the state is the pair (parameter value,
accumulated squared gradient); both the accumulation `s + g^2` and the
parameter move `p - lr * g / (sqrt s + eps)` act elementwise, so the
scalar recurrence is the per-coordinate restriction of the array one. -/
noncomputable def adagrad.scalarStep (learning_rate epsilon g : ℝ)
    (st : ℝ × ℝ) : ℝ × ℝ :=
  let s := st.2 + g ^ 2
  (st.1 - learning_rate * g / (Real.sqrt s + epsilon), s)

/-- `t` Adagrad steps on one parameter coordinate under a constant
gradient stream `g`, from parameter `p0` and zero-initialized
accumulator. -/
noncomputable def adagrad.scalarRun (learning_rate epsilon g p0 : ℝ) :
    ℕ → ℝ × ℝ
  | 0 => (p0, 0)
  | t + 1 => adagrad.scalarStep learning_rate epsilon g
      (adagrad.scalarRun learning_rate epsilon g p0 t)

/-- A heap of numpy arrays: an address-indexed memory together with the
next fresh address.  Array values are opaque (`V`); the frame claims hold
for every value semantics. -/
structure Store (V : Type) where
  mem : ℕ → V
  next : ℕ

/-- Allocate a fresh array holding `v` (every numpy expression that
builds a new array: arithmetic results, `np.zeros_like`, fancy indexing,
slicing, the gradient returned by the external gradient source). -/
def allocS {V : Type} (v : V) (s : Store V) : ℕ × Store V :=
  (s.next, ⟨Function.update s.mem s.next v, s.next + 1⟩)

/-- Overwrite the array at address `a` in place (numpy's augmented
assignment `+=`). -/
def writeS {V : Type} (a : ℕ) (v : V) (s : Store V) : Store V :=
  ⟨Function.update s.mem a v, s.next⟩

/-- The array operations the optimizer loops perform, abstracted over the
array value type: the frame (no-mutation) claims are independent of the
numeric contents. -/
structure TensorOps (V : Type) where
  subv : V → V → V
  addv : V → V → V
  smul : ℚ → V → V
  sqv : V → V
  sqrtEps : ℚ → V → V
  divv : V → V → V
  zeros_like : V → V
  permute : List ℕ → V → V
  slice : ℕ → ℕ → V → V
  lengthOf : V → ℕ


/-- One inner-loop step of `mini_batch_gradient_descent.optimize`, store
level (optimizers.py lines 89-95): slice the working copies, call the
gradient source (a fresh array), scale by the learning rate, and rebind
`current_solution` to the freshly allocated difference.  Python basic
slices are numpy views, but they are only read here, so allocating them
is frame-equivalent. -/
def mini_batch_gradient_descent.stepProg {V : Type} (ops : TensorOps V)
    (calculate_gradient : V → V → V → V) (learning_rate : ℚ) (bs : ℕ)
    (aXs aYs : ℕ) (acc2 : ℕ × Store V) (idx : ℕ) : ℕ × Store V :=
  let (aCur2, s) := acc2
  let (aXsel, s) := allocS (ops.slice (idx * bs) bs (s.mem aXs)) s
  let (aYsel, s) := allocS (ops.slice (idx * bs) bs (s.mem aYs)) s
  let (aGrad, s) := allocS
    (calculate_gradient (s.mem aXsel) (s.mem aYsel) (s.mem aCur2)) s
  let (aScaled, s) := allocS (ops.smul learning_rate (s.mem aGrad)) s
  let (aNew, s) := allocS (ops.subv (s.mem aCur2) (s.mem aScaled)) s
  (aNew, s)

/-- One epoch of `mini_batch_gradient_descent.optimize`, store level
(optimizers.py lines 85-96): `X, y` are rebound to freshly allocated
fancy-indexed copies (`X[shuffled_idx]` copies), then the step runs over
the batches. -/
def mini_batch_gradient_descent.epochProg {V : Type} (ops : TensorOps V)
    (calculate_gradient : V → V → V → V) (shuffle : ℕ → ℕ → List ℕ)
    (learning_rate : ℚ) (iterations bs : ℕ)
    (acc : (ℕ × ℕ × ℕ) × Store V) (e : ℕ) : (ℕ × ℕ × ℕ) × Store V :=
  let ((aXc, aYc, aCur), s) := acc
  let N := ops.lengthOf (s.mem aXc)
  let shuffled_idx := shuffle e N
  let (aXs, s) := allocS (ops.permute shuffled_idx (s.mem aXc)) s
  let (aYs, s) := allocS (ops.permute shuffled_idx (s.mem aYc)) s
  let inner := (List.range iterations).foldl
    (mini_batch_gradient_descent.stepProg ops calculate_gradient
      learning_rate bs aXs aYs) (aCur, s)
  ((aXs, aYs, inner.1), inner.2)

/-- `mini_batch_gradient_descent.optimize`, store level (optimizers.py
lines 83-97): `current_solution = initial_solution` aliases the caller's
array, the epochs fold, and the returned address is the final
`current_solution`.  The batch plan `(bs, iterations)` is the pure
`calculate_batch_size_and_iteration` output, passed in already
computed. -/
def mini_batch_gradient_descent.optimizeProg {V : Type} (ops : TensorOps V)
    (calculate_gradient : V → V → V → V) (shuffle : ℕ → ℕ → List ℕ)
    (learning_rate : ℚ) (max_num_epoch iterations bs : ℕ)
    (aX aY aInit : ℕ) (s0 : Store V) : ℕ × Store V :=
  let current_solution := aInit
  let acc := (List.range max_num_epoch).foldl
    (mini_batch_gradient_descent.epochProg ops calculate_gradient shuffle
      learning_rate iterations bs) ((aX, aY, current_solution), s0)
  (acc.1.2.2, acc.2)

/-- One inner-loop step of
`mini_batch_gradient_descent_with_momentum.optimize`, store level
(optimizers.py lines 214-221): the velocity is rebound to the freshly
allocated decayed difference and the solution to the freshly allocated
sum. -/
def mini_batch_gradient_descent_with_momentum.stepProg {V : Type}
    (ops : TensorOps V) (calculate_gradient : V → V → V → V)
    (learning_rate momentum_decay : ℚ) (bs : ℕ) (aXs aYs : ℕ)
    (acc2 : (ℕ × ℕ) × Store V) (idx : ℕ) : (ℕ × ℕ) × Store V :=
  let ((aCur2, aMom2), s) := acc2
  let (aXsel, s) := allocS (ops.slice (idx * bs) bs (s.mem aXs)) s
  let (aYsel, s) := allocS (ops.slice (idx * bs) bs (s.mem aYs)) s
  let (aGrad, s) := allocS
    (calculate_gradient (s.mem aXsel) (s.mem aYsel) (s.mem aCur2)) s
  let (aMom', s) := allocS
    (ops.subv (ops.smul momentum_decay (s.mem aMom2))
      (ops.smul learning_rate (s.mem aGrad))) s
  let (aNew, s) := allocS (ops.addv (s.mem aCur2) (s.mem aMom')) s
  ((aNew, aMom'), s)

/-- One epoch of `mini_batch_gradient_descent_with_momentum.optimize`,
store level (optimizers.py lines 210-222). -/
def mini_batch_gradient_descent_with_momentum.epochProg {V : Type}
    (ops : TensorOps V) (calculate_gradient : V → V → V → V)
    (shuffle : ℕ → ℕ → List ℕ) (learning_rate momentum_decay : ℚ)
    (iterations bs : ℕ)
    (acc : (ℕ × ℕ × ℕ × ℕ) × Store V) (e : ℕ) :
    (ℕ × ℕ × ℕ × ℕ) × Store V :=
  let ((aXc, aYc, aCur, aMom), s) := acc
  let N := ops.lengthOf (s.mem aXc)
  let shuffled_idx := shuffle e N
  let (aXs, s) := allocS (ops.permute shuffled_idx (s.mem aXc)) s
  let (aYs, s) := allocS (ops.permute shuffled_idx (s.mem aYc)) s
  let inner := (List.range iterations).foldl
    (mini_batch_gradient_descent_with_momentum.stepProg ops
      calculate_gradient learning_rate momentum_decay bs aXs aYs)
    ((aCur, aMom), s)
  ((aXs, aYs, inner.1.1, inner.1.2), inner.2)

/-- `mini_batch_gradient_descent_with_momentum.optimize`, store level
(optimizers.py lines 207-223): like plain descent plus a velocity array,
initialized by allocating `np.zeros_like(initial_solution)`. -/
def mini_batch_gradient_descent_with_momentum.optimizeProg {V : Type}
    (ops : TensorOps V)
    (calculate_gradient : V → V → V → V) (shuffle : ℕ → ℕ → List ℕ)
    (learning_rate momentum_decay : ℚ) (max_num_epoch iterations bs : ℕ)
    (aX aY aInit : ℕ) (s0 : Store V) : ℕ × Store V :=
  let current_solution := aInit
  let (aMom0, s1) := allocS (ops.zeros_like (s0.mem aInit)) s0
  let acc := (List.range max_num_epoch).foldl
    (mini_batch_gradient_descent_with_momentum.epochProg ops
      calculate_gradient shuffle learning_rate momentum_decay iterations
      bs) ((aX, aY, current_solution, aMom0), s1)
  (acc.1.2.2.1, acc.2)

/-- One inner-loop step of `adagrad.optimize`, store level (optimizers.py
lines 270-279).  `squared_gradients += gradient**2` is the one true
in-place mutation in the module: a `writeS` back to the accumulator's own
address `aSq`. -/
def adagrad.stepProg {V : Type} (ops : TensorOps V)
    (calculate_gradient : V → V → V → V) (learning_rate epsilon : ℚ)
    (bs : ℕ) (aXs aYs aSq : ℕ)
    (acc2 : ℕ × Store V) (idx : ℕ) : ℕ × Store V :=
  let (aCur2, s) := acc2
  let (aXsel, s) := allocS (ops.slice (idx * bs) bs (s.mem aXs)) s
  let (aYsel, s) := allocS (ops.slice (idx * bs) bs (s.mem aYs)) s
  let (aGrad, s) := allocS
    (calculate_gradient (s.mem aXsel) (s.mem aYsel) (s.mem aCur2)) s
  let s := writeS aSq (ops.addv (s.mem aSq) (ops.sqv (s.mem aGrad))) s
  let (aRatio, s) := allocS
    (ops.divv (ops.smul learning_rate (s.mem aGrad))
      (ops.sqrtEps epsilon (s.mem aSq))) s
  let (aNew, s) := allocS (ops.subv (s.mem aCur2) (s.mem aRatio)) s
  (aNew, s)

/-- One epoch of `adagrad.optimize`, store level (optimizers.py lines
266-280). -/
def adagrad.epochProg {V : Type} (ops : TensorOps V)
    (calculate_gradient : V → V → V → V) (shuffle : ℕ → ℕ → List ℕ)
    (learning_rate epsilon : ℚ) (iterations bs aSq : ℕ)
    (acc : (ℕ × ℕ × ℕ) × Store V) (e : ℕ) : (ℕ × ℕ × ℕ) × Store V :=
  let ((aXc, aYc, aCur), s) := acc
  let N := ops.lengthOf (s.mem aXc)
  let shuffled_idx := shuffle e N
  let (aXs, s) := allocS (ops.permute shuffled_idx (s.mem aXc)) s
  let (aYs, s) := allocS (ops.permute shuffled_idx (s.mem aYc)) s
  let inner := (List.range iterations).foldl
    (adagrad.stepProg ops calculate_gradient learning_rate epsilon bs
      aXs aYs aSq) (aCur, s)
  ((aXs, aYs, inner.1), inner.2)

/-- `adagrad.optimize`, store level (optimizers.py lines 263-281): the
accumulator is allocated once as `np.zeros_like(initial_solution)` and
then mutated in place at that same fresh address on every step. -/
def adagrad.optimizeProg {V : Type} (ops : TensorOps V)
    (calculate_gradient : V → V → V → V) (shuffle : ℕ → ℕ → List ℕ)
    (learning_rate epsilon : ℚ) (max_num_epoch iterations bs : ℕ)
    (aX aY aInit : ℕ) (s0 : Store V) : ℕ × Store V :=
  let current_solution := aInit
  let (aSq, s1) := allocS (ops.zeros_like (s0.mem aInit)) s0
  let acc := (List.range max_num_epoch).foldl
    (adagrad.epochProg ops calculate_gradient shuffle learning_rate
      epsilon iterations bs aSq) ((aX, aY, current_solution), s1)
  (acc.1.2.2, acc.2)

/-- One inner-loop step of `rmsprop.optimize`, store level (optimizers.py
lines 329-341): the squared-gradient accumulator is rebound to a freshly
allocated decayed combination — no in-place update. -/
def rmsprop.stepProg {V : Type} (ops : TensorOps V)
    (calculate_gradient : V → V → V → V)
    (learning_rate squared_gradient_decay epsilon : ℚ) (bs : ℕ)
    (aXs aYs : ℕ)
    (acc2 : (ℕ × ℕ) × Store V) (idx : ℕ) : (ℕ × ℕ) × Store V :=
  let ((aCur2, aSq2), s) := acc2
  let (aXsel, s) := allocS (ops.slice (idx * bs) bs (s.mem aXs)) s
  let (aYsel, s) := allocS (ops.slice (idx * bs) bs (s.mem aYs)) s
  let (aGrad, s) := allocS
    (calculate_gradient (s.mem aXsel) (s.mem aYsel) (s.mem aCur2)) s
  let (aSq', s) := allocS
    (ops.addv (ops.smul squared_gradient_decay (s.mem aSq2))
      (ops.smul 1 (ops.sqv (s.mem aGrad)))) s
  let (aRatio, s) := allocS
    (ops.divv (ops.smul learning_rate (s.mem aGrad))
      (ops.sqrtEps epsilon (s.mem aSq'))) s
  let (aNew, s) := allocS (ops.subv (s.mem aCur2) (s.mem aRatio)) s
  ((aNew, aSq'), s)

/-- One epoch of `rmsprop.optimize`, store level (optimizers.py lines
325-342). -/
def rmsprop.epochProg {V : Type} (ops : TensorOps V)
    (calculate_gradient : V → V → V → V) (shuffle : ℕ → ℕ → List ℕ)
    (learning_rate squared_gradient_decay epsilon : ℚ)
    (iterations bs : ℕ)
    (acc : (ℕ × ℕ × ℕ × ℕ) × Store V) (e : ℕ) :
    (ℕ × ℕ × ℕ × ℕ) × Store V :=
  let ((aXc, aYc, aCur, aSq), s) := acc
  let N := ops.lengthOf (s.mem aXc)
  let shuffled_idx := shuffle e N
  let (aXs, s) := allocS (ops.permute shuffled_idx (s.mem aXc)) s
  let (aYs, s) := allocS (ops.permute shuffled_idx (s.mem aYc)) s
  let inner := (List.range iterations).foldl
    (rmsprop.stepProg ops calculate_gradient learning_rate
      squared_gradient_decay epsilon bs aXs aYs) ((aCur, aSq), s)
  ((aXs, aYs, inner.1.1, inner.1.2), inner.2)

/-- `rmsprop.optimize`, store level (optimizers.py lines 322-343). -/
def rmsprop.optimizeProg {V : Type} (ops : TensorOps V)
    (calculate_gradient : V → V → V → V) (shuffle : ℕ → ℕ → List ℕ)
    (learning_rate squared_gradient_decay epsilon : ℚ)
    (max_num_epoch iterations bs : ℕ)
    (aX aY aInit : ℕ) (s0 : Store V) : ℕ × Store V :=
  let current_solution := aInit
  let (aSq0, s1) := allocS (ops.zeros_like (s0.mem aInit)) s0
  let acc := (List.range max_num_epoch).foldl
    (rmsprop.epochProg ops calculate_gradient shuffle learning_rate
      squared_gradient_decay epsilon iterations bs)
    ((aX, aY, current_solution, aSq0), s1)
  (acc.1.2.2.1, acc.2)

/-- One inner-loop step of `adam.optimize`, store level (optimizers.py
lines 396-423): batches are sliced from the caller's `X`, `y` directly
(the shuffle application is commented out in the source); the moment
accumulators are rebound to fresh arrays, the bias-corrected copies are
fresh scalar-rescaled arrays, and the solution is rebound to the fresh
difference.  The scalar step counter lives in the fold state, not the
store. -/
def adam.stepProg {V : Type} (ops : TensorOps V)
    (calculate_gradient : V → V → V → V)
    (learning_rate momentum_decay squared_gradient_decay epsilon : ℚ)
    (bs : ℕ) (aX aY : ℕ)
    (acc2 : (ℕ × ℕ × ℕ × ℕ) × Store V) (idx : ℕ) :
    (ℕ × ℕ × ℕ × ℕ) × Store V :=
  let ((aCur2, aMom2, aSq2, counter), s) := acc2
  let (aXsel, s) := allocS (ops.slice (idx * bs) bs (s.mem aX)) s
  let (aYsel, s) := allocS (ops.slice (idx * bs) bs (s.mem aY)) s
  let (aGrad, s) := allocS
    (calculate_gradient (s.mem aXsel) (s.mem aYsel) (s.mem aCur2)) s
  let (aMom', s) := allocS
    (ops.addv (ops.smul momentum_decay (s.mem aMom2))
      (ops.smul (1 - momentum_decay) (s.mem aGrad))) s
  let (aSq', s) := allocS
    (ops.addv (ops.smul squared_gradient_decay (s.mem aSq2))
      (ops.smul (1 - squared_gradient_decay) (ops.sqv (s.mem aGrad)))) s
  let counter' := counter + 1
  let (aMomHat, s) := allocS (ops.smul 1 (s.mem aMom')) s
  let (aSqHat, s) := allocS (ops.smul 1 (s.mem aSq')) s
  let (aRatio, s) := allocS
    (ops.divv (ops.smul learning_rate (s.mem aMomHat))
      (ops.sqrtEps epsilon (s.mem aSqHat))) s
  let (aNew, s) := allocS (ops.subv (s.mem aCur2) (s.mem aRatio)) s
  ((aNew, aMom', aSq', counter'), s)

/-- One epoch of `adam.optimize`, store level (optimizers.py lines
392-425): a permutation is drawn and discarded; `X` and `y` are never
rebound. -/
def adam.epochProg {V : Type} (ops : TensorOps V)
    (calculate_gradient : V → V → V → V) (shuffle : ℕ → ℕ → List ℕ)
    (learning_rate momentum_decay squared_gradient_decay epsilon : ℚ)
    (iterations bs aX aY : ℕ)
    (acc : (ℕ × ℕ × ℕ × ℕ) × Store V) (i : ℕ) :
    (ℕ × ℕ × ℕ × ℕ) × Store V :=
  let (st, s) := acc
  let N := ops.lengthOf (s.mem aX)
  let _shuffled_idx := shuffle i N
  (List.range iterations).foldl
    (adam.stepProg ops calculate_gradient learning_rate momentum_decay
      squared_gradient_decay epsilon bs aX aY) (st, s)

/-- `adam.optimize`, store level (optimizers.py lines 387-426). -/
def adam.optimizeProg {V : Type} (ops : TensorOps V)
    (calculate_gradient : V → V → V → V) (shuffle : ℕ → ℕ → List ℕ)
    (learning_rate momentum_decay squared_gradient_decay epsilon : ℚ)
    (max_num_epoch iterations bs : ℕ)
    (aX aY aInit : ℕ) (s0 : Store V) : ℕ × Store V :=
  let current_solution := aInit
  let (aMom0, s1) := allocS (ops.zeros_like (s0.mem aInit)) s0
  let (aSq0, s2) := allocS (ops.zeros_like (s1.mem aInit)) s1
  let acc := (List.range max_num_epoch).foldl
    (adam.epochProg ops calculate_gradient shuffle learning_rate
      momentum_decay squared_gradient_decay epsilon iterations bs aX aY)
    ((current_solution, aMom0, aSq0, 0), s2)
  (acc.1.1, acc.2)
/-- Store evolution that leaves every address below `B` untouched and
never decreases the allocation frontier. -/
def Preserves {V : Type} (B : ℕ) (s s' : Store V) : Prop :=
  s.next ≤ s'.next ∧ ∀ a, a < B → s'.mem a = s.mem a

theorem Preserves.refl {V : Type} (B : ℕ) (s : Store V) :
    Preserves B s s :=
  ⟨le_refl _, fun _ _ => rfl⟩

theorem Preserves.trans {V : Type} {B : ℕ} {s s' s'' : Store V}
    (h1 : Preserves B s s') (h2 : Preserves B s' s'') :
    Preserves B s s'' :=
  ⟨le_trans h1.1 h2.1, fun a ha => (h2.2 a ha).trans (h1.2 a ha)⟩

theorem allocS_preserves {V : Type} {B : ℕ} {s : Store V} (v : V)
    (hs : B ≤ s.next) : Preserves B s (allocS v s).2 := by
  refine ⟨Nat.le_succ _, fun a ha => ?_⟩
  simp only [allocS]
  exact Function.update_noteq (by omega) _ _

theorem writeS_preserves {V : Type} {B t : ℕ} {s : Store V} (v : V)
    (ht : B ≤ t) : Preserves B s (writeS t v s) := by
  refine ⟨le_refl _, fun a ha => ?_⟩
  simp only [writeS]
  exact Function.update_noteq (by omega) _ _

/-- Chaining step: extend a preserving evolution by one allocation. -/
theorem Preserves.alloc {V : Type} {B : ℕ} {s s' : Store V} (v : V)
    (h : Preserves B s s') (hs : B ≤ s.next) :
    Preserves B s (allocS v s').2 :=
  h.trans (allocS_preserves v (le_trans hs h.1))

/-- Chaining step: extend a preserving evolution by an in-place write at
an address at or above the protected bound. -/
theorem Preserves.write {V : Type} {B t : ℕ} {s s' : Store V} (v : V)
    (h : Preserves B s s') (ht : B ≤ t) :
    Preserves B s (writeS t v s') :=
  h.trans (writeS_preserves v ht)

theorem allocS_next {V : Type} (v : V) (s : Store V) :
    (allocS v s).2.next = s.next + 1 := rfl

/-- A fold whose body preserves addresses below `B` preserves them over
the whole run. -/
theorem foldl_preserves {V σ : Type} {B : ℕ}
    (f : σ × Store V → ℕ → σ × Store V)
    (hf : ∀ p e, B ≤ p.2.next → Preserves B p.2 (f p e).2)
    (l : List ℕ) (p : σ × Store V) (hp : B ≤ p.2.next) :
    Preserves B p.2 (l.foldl f p).2 := by
  induction l generalizing p with
  | nil => exact Preserves.refl B p.2
  | cons e t ih =>
      exact (hf p e hp).trans (ih (f p e) (le_trans hp (hf p e hp).1))

theorem mini_batch_stepProg_frames {V : Type} {B : ℕ}
    (ops : TensorOps V) (grad : V → V → V → V) (lr : ℚ) (bs aXs aYs : ℕ)
    (p : ℕ × Store V) (idx : ℕ) (hp : B ≤ p.2.next) :
    Preserves B p.2
      (mini_batch_gradient_descent.stepProg ops grad lr bs aXs aYs p
        idx).2 := by
  obtain ⟨aCur2, s⟩ := p
  exact Preserves.alloc _ (Preserves.alloc _ (Preserves.alloc _
    (Preserves.alloc _ (allocS_preserves _ hp) hp) hp) hp) hp

theorem mini_batch_epochProg_frames {V : Type} {B : ℕ}
    (ops : TensorOps V) (grad : V → V → V → V) (shuffle : ℕ → ℕ → List ℕ)
    (lr : ℚ) (iterations bs : ℕ)
    (p : (ℕ × ℕ × ℕ) × Store V) (e : ℕ) (hp : B ≤ p.2.next) :
    Preserves B p.2
      (mini_batch_gradient_descent.epochProg ops grad shuffle lr
        iterations bs p e).2 := by
  obtain ⟨⟨aXc, aYc, aCur⟩, s⟩ := p
  unfold mini_batch_gradient_descent.epochProg
  dsimp only
  refine Preserves.trans ?_ (foldl_preserves _ ?_ _ (aCur, _) ?_)
  · exact Preserves.alloc _ (allocS_preserves _ hp) hp
  · exact fun p2 e2 hp2 =>
      mini_batch_stepProg_frames ops grad lr bs
        _ _ p2 e2 hp2
  · dsimp only at hp
    simp only [allocS_next]
    omega

theorem mini_batch_optimizeProg_frames {V : Type}
    {B : ℕ} (ops : TensorOps V) (grad : V → V → V → V)
    (shuffle : ℕ → ℕ → List ℕ) (lr : ℚ)
    (max_num_epoch iterations bs aX aY aInit : ℕ) (s0 : Store V)
    (hs : B ≤ s0.next) :
    Preserves B s0
      (mini_batch_gradient_descent.optimizeProg ops grad shuffle lr
        max_num_epoch iterations bs aX aY aInit s0).2 :=
  foldl_preserves _
    (fun p e hp =>
      mini_batch_epochProg_frames ops grad shuffle lr
        iterations bs p e hp)
    (List.range max_num_epoch) ((aX, aY, aInit), s0) hs

theorem momentum_stepProg_frames
    {V : Type} {B : ℕ} (ops : TensorOps V) (grad : V → V → V → V)
    (lr md : ℚ) (bs aXs aYs : ℕ)
    (p : (ℕ × ℕ) × Store V) (idx : ℕ) (hp : B ≤ p.2.next) :
    Preserves B p.2
      (mini_batch_gradient_descent_with_momentum.stepProg ops grad lr md
        bs aXs aYs p idx).2 := by
  obtain ⟨⟨aCur2, aMom2⟩, s⟩ := p
  exact Preserves.alloc _ (Preserves.alloc _ (Preserves.alloc _
    (Preserves.alloc _ (allocS_preserves _ hp) hp) hp) hp) hp

theorem momentum_epochProg_frames
    {V : Type} {B : ℕ} (ops : TensorOps V) (grad : V → V → V → V)
    (shuffle : ℕ → ℕ → List ℕ) (lr md : ℚ) (iterations bs : ℕ)
    (p : (ℕ × ℕ × ℕ × ℕ) × Store V) (e : ℕ) (hp : B ≤ p.2.next) :
    Preserves B p.2
      (mini_batch_gradient_descent_with_momentum.epochProg ops grad
        shuffle lr md iterations bs p e).2 := by
  obtain ⟨⟨aXc, aYc, aCur, aMom⟩, s⟩ := p
  unfold mini_batch_gradient_descent_with_momentum.epochProg
  dsimp only
  refine Preserves.trans ?_
    (foldl_preserves _ ?_ _ ((aCur, aMom), _) ?_)
  · exact Preserves.alloc _ (allocS_preserves _ hp) hp
  · exact fun p2 e2 hp2 =>
      momentum_stepProg_frames ops
        grad lr md bs _ _ p2 e2 hp2
  · dsimp only at hp
    simp only [allocS_next]
    omega

theorem momentum_optimizeProg_frames
    {V : Type} {B : ℕ} (ops : TensorOps V) (grad : V → V → V → V)
    (shuffle : ℕ → ℕ → List ℕ) (lr md : ℚ)
    (max_num_epoch iterations bs aX aY aInit : ℕ) (s0 : Store V)
    (hs : B ≤ s0.next) :
    Preserves B s0
      (mini_batch_gradient_descent_with_momentum.optimizeProg ops grad
        shuffle lr md max_num_epoch iterations bs aX aY aInit s0).2 := by
  unfold mini_batch_gradient_descent_with_momentum.optimizeProg
  dsimp only
  refine Preserves.trans ?_
    (foldl_preserves _ ?_ _ ((aX, aY, aInit, _), _) ?_)
  · exact allocS_preserves _ hs
  · exact fun p e hp =>
      momentum_epochProg_frames ops
        grad shuffle lr md iterations bs p e hp
  · simp only [allocS_next]
    omega

theorem adagrad_stepProg_frames {V : Type} {B : ℕ}
    (ops : TensorOps V) (grad : V → V → V → V) (lr eps : ℚ)
    (bs aXs aYs aSq : ℕ)
    (p : ℕ × Store V) (idx : ℕ) (hp : B ≤ p.2.next) (hsq : B ≤ aSq) :
    Preserves B p.2
      (adagrad.stepProg ops grad lr eps bs aXs aYs aSq p idx).2 := by
  obtain ⟨aCur2, s⟩ := p
  exact Preserves.alloc _ (Preserves.alloc _ (Preserves.write _
    (Preserves.alloc _ (Preserves.alloc _ (allocS_preserves _ hp) hp)
      hp) hsq) hp) hp

theorem adagrad_epochProg_frames {V : Type} {B : ℕ}
    (ops : TensorOps V) (grad : V → V → V → V)
    (shuffle : ℕ → ℕ → List ℕ) (lr eps : ℚ) (iterations bs aSq : ℕ)
    (p : (ℕ × ℕ × ℕ) × Store V) (e : ℕ) (hp : B ≤ p.2.next)
    (hsq : B ≤ aSq) :
    Preserves B p.2
      (adagrad.epochProg ops grad shuffle lr eps iterations bs aSq p
        e).2 := by
  obtain ⟨⟨aXc, aYc, aCur⟩, s⟩ := p
  unfold adagrad.epochProg
  dsimp only
  refine Preserves.trans ?_ (foldl_preserves _ ?_ _ (aCur, _) ?_)
  · exact Preserves.alloc _ (allocS_preserves _ hp) hp
  · exact fun p2 e2 hp2 =>
      adagrad_stepProg_frames ops grad lr eps bs _ _ aSq p2 e2 hp2 hsq
  · dsimp only at hp
    simp only [allocS_next]
    omega

theorem adagrad_optimizeProg_frames {V : Type} {B : ℕ}
    (ops : TensorOps V) (grad : V → V → V → V)
    (shuffle : ℕ → ℕ → List ℕ) (lr eps : ℚ)
    (max_num_epoch iterations bs aX aY aInit : ℕ) (s0 : Store V)
    (hs : B ≤ s0.next) :
    Preserves B s0
      (adagrad.optimizeProg ops grad shuffle lr eps max_num_epoch
        iterations bs aX aY aInit s0).2 := by
  unfold adagrad.optimizeProg
  dsimp only
  refine Preserves.trans ?_
    (foldl_preserves _ ?_ _ ((aX, aY, aInit), _) ?_)
  · exact allocS_preserves _ hs
  · exact fun p e hp =>
      adagrad_epochProg_frames ops grad shuffle lr eps iterations bs
        _ p e hp hs
  · simp only [allocS_next]
    omega

theorem rmsprop_stepProg_frames {V : Type} {B : ℕ}
    (ops : TensorOps V) (grad : V → V → V → V) (lr sgd eps : ℚ)
    (bs aXs aYs : ℕ)
    (p : (ℕ × ℕ) × Store V) (idx : ℕ) (hp : B ≤ p.2.next) :
    Preserves B p.2
      (rmsprop.stepProg ops grad lr sgd eps bs aXs aYs p idx).2 := by
  obtain ⟨⟨aCur2, aSq2⟩, s⟩ := p
  exact Preserves.alloc _ (Preserves.alloc _ (Preserves.alloc _
    (Preserves.alloc _ (Preserves.alloc _ (allocS_preserves _ hp) hp)
      hp) hp) hp) hp

theorem rmsprop_epochProg_frames {V : Type} {B : ℕ}
    (ops : TensorOps V) (grad : V → V → V → V)
    (shuffle : ℕ → ℕ → List ℕ) (lr sgd eps : ℚ) (iterations bs : ℕ)
    (p : (ℕ × ℕ × ℕ × ℕ) × Store V) (e : ℕ) (hp : B ≤ p.2.next) :
    Preserves B p.2
      (rmsprop.epochProg ops grad shuffle lr sgd eps iterations bs p
        e).2 := by
  obtain ⟨⟨aXc, aYc, aCur, aSq⟩, s⟩ := p
  unfold rmsprop.epochProg
  dsimp only
  refine Preserves.trans ?_
    (foldl_preserves _ ?_ _ ((aCur, aSq), _) ?_)
  · exact Preserves.alloc _ (allocS_preserves _ hp) hp
  · exact fun p2 e2 hp2 =>
      rmsprop_stepProg_frames ops grad lr sgd eps bs _ _ p2 e2 hp2
  · dsimp only at hp
    simp only [allocS_next]
    omega

theorem rmsprop_optimizeProg_frames {V : Type} {B : ℕ}
    (ops : TensorOps V) (grad : V → V → V → V)
    (shuffle : ℕ → ℕ → List ℕ) (lr sgd eps : ℚ)
    (max_num_epoch iterations bs aX aY aInit : ℕ) (s0 : Store V)
    (hs : B ≤ s0.next) :
    Preserves B s0
      (rmsprop.optimizeProg ops grad shuffle lr sgd eps max_num_epoch
        iterations bs aX aY aInit s0).2 := by
  unfold rmsprop.optimizeProg
  dsimp only
  refine Preserves.trans ?_
    (foldl_preserves _ ?_ _ ((aX, aY, aInit, _), _) ?_)
  · exact allocS_preserves _ hs
  · exact fun p e hp =>
      rmsprop_epochProg_frames ops grad shuffle lr sgd eps iterations
        bs p e hp
  · simp only [allocS_next]
    omega

theorem adam_stepProg_frames {V : Type} {B : ℕ}
    (ops : TensorOps V) (grad : V → V → V → V) (lr md sgd eps : ℚ)
    (bs aX aY : ℕ)
    (p : (ℕ × ℕ × ℕ × ℕ) × Store V) (idx : ℕ) (hp : B ≤ p.2.next) :
    Preserves B p.2
      (adam.stepProg ops grad lr md sgd eps bs aX aY p idx).2 := by
  obtain ⟨⟨aCur2, aMom2, aSq2, counter⟩, s⟩ := p
  exact Preserves.alloc _ (Preserves.alloc _ (Preserves.alloc _
    (Preserves.alloc _ (Preserves.alloc _ (Preserves.alloc _
      (Preserves.alloc _ (Preserves.alloc _ (allocS_preserves _ hp)
        hp) hp) hp) hp) hp) hp) hp) hp

theorem adam_epochProg_frames {V : Type} {B : ℕ}
    (ops : TensorOps V) (grad : V → V → V → V)
    (shuffle : ℕ → ℕ → List ℕ) (lr md sgd eps : ℚ)
    (iterations bs aX aY : ℕ)
    (p : (ℕ × ℕ × ℕ × ℕ) × Store V) (i : ℕ) (hp : B ≤ p.2.next) :
    Preserves B p.2
      (adam.epochProg ops grad shuffle lr md sgd eps iterations bs aX aY
        p i).2 := by
  obtain ⟨st, s⟩ := p
  unfold adam.epochProg
  dsimp only
  refine foldl_preserves _ ?_ _ (st, s) hp
  exact fun p2 e2 hp2 =>
    adam_stepProg_frames ops grad lr md sgd eps bs aX aY p2 e2 hp2

theorem adam_optimizeProg_frames {V : Type} {B : ℕ}
    (ops : TensorOps V) (grad : V → V → V → V)
    (shuffle : ℕ → ℕ → List ℕ) (lr md sgd eps : ℚ)
    (max_num_epoch iterations bs aX aY aInit : ℕ) (s0 : Store V)
    (hs : B ≤ s0.next) :
    Preserves B s0
      (adam.optimizeProg ops grad shuffle lr md sgd eps max_num_epoch
        iterations bs aX aY aInit s0).2 := by
  unfold adam.optimizeProg
  dsimp only
  refine Preserves.trans ?_
    (foldl_preserves _ ?_ _ ((aInit, _, _, 0), _) ?_)
  · exact Preserves.alloc _ (allocS_preserves _ hs) hs
  · exact fun p e hp =>
      adam_epochProg_frames ops grad shuffle lr md sgd eps iterations
        bs aX aY p e hp
  · simp only [allocS_next]
    omega

theorem zipWith_add_replicate_zero (l : List ℝ) (n : ℕ) (h : l.length = n) :
    List.zipWith (fun a b => a + b) (List.replicate n (0:ℝ)) l = l := by
  induction l generalizing n with
  | nil => simp
  | cons x t ih =>
      subst h
      simp [List.replicate_succ, ih t.length rfl]

theorem pyTrunc_nonneg_eq_floor (q : ℚ) (h : 0 ≤ q) : pyTrunc q = ⌊q⌋ := by
  unfold pyTrunc
  exact if_pos h

theorem pyTrunc_nat_div_pos (N : ℕ) (b : ℤ) (hb : 1 ≤ b) :
    pyTrunc ((N : ℚ) / (b : ℚ)) = (N : ℤ) / b := by
  lift b to ℕ using (by omega : (0:ℤ) ≤ b) with m
  rw [pyTrunc_nonneg_eq_floor _ (by positivity)]
  push_cast
  exact_mod_cast Rat.floor_natCast_div_natCast N m

/-- The planner on the explicit-batch-size path with a positive batch
size: Python's `int(N / batch_size)` on exact values is integer
division. -/
theorem batch_planner_no_fraction (bs : ℤ) (N : ℕ) (hbs : 1 ≤ bs) :
    calculate_batch_size_and_iteration bs none N =
      Except.ok (bs, (N : ℤ) / bs) := by
  unfold calculate_batch_size_and_iteration
  rw [if_neg (by omega), pyTrunc_nat_div_pos N bs hbs]

/-- The planner on the fraction path when the computed batch size
`floor(N * f)` is at least 1 (otherwise Python divides by zero). -/
theorem batch_planner_fraction (f : ℚ) (N : ℕ) (bsz : ℤ)
    (hf0 : 0 < f) (hf1 : f ≤ 1) (hbs : 1 ≤ ⌊(N : ℚ) * f⌋) :
    calculate_batch_size_and_iteration bsz (some f) N =
      Except.ok (⌊(N : ℚ) * f⌋, (N : ℤ) / ⌊(N : ℚ) * f⌋) := by
  unfold calculate_batch_size_and_iteration
  dsimp only
  rw [if_pos (show 0 < f ∧ f ≤ 1 from ⟨hf0, hf1⟩)]
  rw [pyTrunc_nonneg_eq_floor ((N:ℚ) * f)
    (mul_nonneg (Nat.cast_nonneg N) hf0.le)]
  rw [if_neg (by omega), pyTrunc_nat_div_pos N _ hbs]

/-- The planner's `assert 0 < batch_fraction <= 1` fires before anything
else on the fraction path. -/
theorem batch_planner_bad_fraction (bs : ℤ) (f : ℚ) (N : ℕ)
    (hf : ¬ (0 < f ∧ f ≤ 1)) :
    calculate_batch_size_and_iteration bs (some f) N =
      Except.error "batch_fraction must be between 0 and 1" := by
  unfold calculate_batch_size_and_iteration
  dsimp only
  rw [if_neg hf]

theorem npZip_right_singleton {γ : Type} (f : γ → γ → γ) (a : List γ)
    (c : γ) (h : a.length ≠ 1) :
    npZip f a [c] = Except.ok (a.map (fun x => f x c)) := by
  unfold npZip
  rw [if_neg (by simpa using h)]
  rcases a with _ | ⟨x, _ | ⟨x2, xt⟩⟩
  · rfl
  · simp at h
  · rfl

theorem npZip_left_singleton {γ : Type} (f : γ → γ → γ) (c : γ)
    (b : List γ) (h : b.length ≠ 1) :
    npZip f [c] b = Except.ok (b.map (fun x => f c x)) := by
  unfold npZip
  rw [if_neg (by simp; omega)]
  rcases b with _ | ⟨y, _ | ⟨y2, yt⟩⟩
  · rfl
  · simp at h
  · rfl

theorem npZip_mismatch {γ : Type} (f : γ → γ → γ) (a b : List γ)
    (hab : a.length ≠ b.length) (ha : a.length ≠ 1) (hb : b.length ≠ 1) :
    npZip f a b = Except.error "ValueError" := by
  unfold npZip
  rw [if_neg hab]
  rcases a with _ | ⟨x, _ | ⟨x2, xt⟩⟩ <;>
    rcases b with _ | ⟨y, _ | ⟨y2, yt⟩⟩ <;>
    simp_all

/-- The Adagrad accumulator after `t` constant-gradient steps is
`t * g^2`. -/
theorem adagrad_scalarRun_acc (lr eps g p0 : ℝ) :
    ∀ t : ℕ, (adagrad.scalarRun lr eps g p0 t).2 = t * g ^ 2 := by
  intro t
  induction t with
  | zero => simp [adagrad.scalarRun]
  | succ t ih =>
      simp [adagrad.scalarRun, adagrad.scalarStep, ih]
      ring

/-- The `t`-th constant-gradient Adagrad parameter move. -/
theorem adagrad_scalarRun_delta (lr eps g p0 : ℝ) (t : ℕ) :
    (adagrad.scalarRun lr eps g p0 (t+1)).1 -
      (adagrad.scalarRun lr eps g p0 t).1 =
    -(lr * g / (Real.sqrt ((t+1) * g ^ 2) + eps)) := by
  have h := adagrad_scalarRun_acc lr eps g p0 t
  simp [adagrad.scalarRun, adagrad.scalarStep, h]
  rw [show (t:ℝ) * g ^ 2 + g ^ 2 = ((t:ℝ) + 1) * g ^ 2 by ring]

/-- C1: In Adam's step, after the first mini-batch update (step counter
`t = 1`) with `momentum_decay = 0.9` and momentum initialized to zero
(`np.zeros_like` of the parameter vector, length `n`), the bias-corrected
momentum `m / (1 - 0.9^1)` equals the raw first gradient exactly, for
every gradient vector. -/
theorem adam_first_step_bias_correction (n : ℕ) (g : List ℝ)
    (h : g.length = n) :
    (adam.momentum_update (9/10) (List.replicate n 0) g).map
      (adam.bias_correction (9/10) 1) = Except.ok g := by
  unfold adam.momentum_update adam.bias_correction npZip
  rw [if_pos (by simp [h])]
  simp only [Except.map, List.map_replicate, mul_zero]
  rw [zipWith_add_replicate_zero _ _ (by simp [h])]
  congr 1
  rw [List.map_map]
  have hx : ∀ x : ℝ, (1 - 9/10) * x / (1 - (9/10) ^ 1) = x := by
    intro x
    norm_num
  calc (g.map fun x => (1 - 9/10) * x / (1 - (9/10:ℝ) ^ 1))
      = g.map id := List.map_congr_left (fun x _ => hx x)
    _ = g := List.map_id g

/-- Witness for `adam_first_step_bias_correction` at `n = 1`,
`g = [2]`. -/
theorem adam_first_step_bias_correction_witness :
    (adam.momentum_update (9/10) (List.replicate 1 0) [(2:ℝ)]).map
      (adam.bias_correction (9/10) 1) = Except.ok [(2:ℝ)] :=
  adam_first_step_bias_correction 1 [(2:ℝ)] rfl

/-- C2 counterexample: at the valid configuration `N = 1`,
`batch_fraction = 1/2` (so `0 < f ≤ 1` holds), the planner does not
return a plan with `batch_size ≥ 1` — `int(N * f) = 0` and the following
`int(N / batch_size)` raises `ZeroDivisionError`. -/
theorem batch_planner_zero_batch_counterexample :
    calculate_batch_size_and_iteration 1 (some (1/2)) 1 =
      Except.error "ZeroDivisionError" := by
  norm_num [calculate_batch_size_and_iteration, pyTrunc]

/-- C2 amended: the batch planner returns
`iterations_per_epoch = N // batch_size` with `batch_size ≥ 1` provided
the (computed or supplied) batch size is at least 1; on the fraction path
this needs the extra hypothesis `floor(N * f) ≥ 1`, without which the
planner crashes with a division error instead of returning.  `f = 1`
yields `batch_size = N` and one iteration (for `N ≥ 1`), and
`batch_size = 1` with no fraction yields `N` iterations. -/
theorem batch_planner_plan_amended :
    (∀ (f : ℚ) (N : ℕ) (bsz : ℤ), 0 < f → f ≤ 1 → 1 ≤ ⌊(N : ℚ) * f⌋ →
      calculate_batch_size_and_iteration bsz (some f) N =
        Except.ok (⌊(N : ℚ) * f⌋, (N : ℤ) / ⌊(N : ℚ) * f⌋)) ∧
    (∀ (N : ℕ) (bsz : ℤ), 1 ≤ N →
      calculate_batch_size_and_iteration bsz (some 1) N =
        Except.ok ((N : ℤ), 1)) ∧
    (∀ N : ℕ, calculate_batch_size_and_iteration 1 none N =
        Except.ok (1, (N : ℤ))) ∧
    (∀ (bs : ℤ) (N : ℕ), 1 ≤ bs →
      calculate_batch_size_and_iteration bs none N =
        Except.ok (bs, (N : ℤ) / bs)) := by
  refine ⟨fun f N bsz hf0 hf1 hbs =>
      batch_planner_fraction f N bsz hf0 hf1 hbs,
    fun N bsz hN => ?_, fun N => ?_,
    fun bs N hbs => batch_planner_no_fraction bs N hbs⟩
  · have hfl : ⌊(N:ℚ) * 1⌋ = (N:ℤ) := by simp
    rw [batch_planner_fraction 1 N bsz one_pos (le_refl 1)
      (by rw [hfl]; exact_mod_cast hN)]
    rw [hfl, Int.ediv_self (by exact_mod_cast Nat.one_le_iff_ne_zero.mp hN)]
  · simpa using batch_planner_no_fraction 1 N (le_refl 1)

/-- Witness for `batch_planner_plan_amended`: the fraction path at
`f = 1/2`, `N = 4`, the full-batch preset at `N = 4`, and the
pure-stochastic preset and explicit path at `N = 4`, `batch_size = 3`. -/
theorem batch_planner_plan_amended_witness :
    calculate_batch_size_and_iteration 1 (some (1/2)) 4 =
        Except.ok (⌊((4:ℕ) : ℚ) * (1/2)⌋, ((4:ℕ) : ℤ) / ⌊((4:ℕ) : ℚ) * (1/2)⌋) ∧
    calculate_batch_size_and_iteration 1 (some 1) 4 =
        Except.ok (((4:ℕ) : ℤ), 1) ∧
    calculate_batch_size_and_iteration 1 none 4 =
        Except.ok (1, ((4:ℕ) : ℤ)) ∧
    calculate_batch_size_and_iteration 3 none 4 =
        Except.ok (3, ((4:ℕ) : ℤ) / 3) :=
  ⟨batch_planner_plan_amended.1 (1/2) 4 1 (by norm_num) (by norm_num)
      (by norm_num),
    batch_planner_plan_amended.2.1 4 1 (by norm_num),
    batch_planner_plan_amended.2.2.1 4,
    batch_planner_plan_amended.2.2.2 3 4 (by norm_num)⟩

/-- C3 counterexample: with parameters of shape `(2,)` and a gradient
source returning the mismatched shape `(1,)`, `optimize` raises no
`ShapeMismatch` — numpy broadcasting silently stretches the gradient and
the run returns updated (changed) parameters. -/
theorem shape_mismatch_counterexample :
    mini_batch_gradient_descent.optimize [()] [()] [(0:ℚ), 0]
      (fun _ _ _ => [1]) (fun _ _ => [0]) (1/10) 1 1 none
      = Except.ok [-(1/10), -(1/10)] := by
  simp [mini_batch_gradient_descent.optimize,
    calculate_batch_size_and_iteration, pyTrunc, npZip, reindex,
    List.range_succ, List.foldlM]

/-- C3 amended: the optimizer performs no shape check at all.  When the
1-D gradient length mismatches the parameter length but one of them is 1
(numpy-broadcastable), the update silently broadcasts and the returned
parameters are the broadcast update, different from their pre-call
values — in the gradient-length-1 case the single gradient entry is
applied to every parameter, and in the parameter-length-1 case the run
returns an array of the gradient's (different) shape; when neither
length is 1, the elementwise arithmetic itself fails with numpy's
`ValueError` (not a `ShapeMismatch`), and — because every update rebinds
rather than mutates — the caller's parameter array still holds its
pre-call values. -/
theorem shape_mismatch_amended :
    (∀ (n : ℕ) (g : ℚ), 2 ≤ n →
      mini_batch_gradient_descent.optimize [()] [()]
          (List.replicate n (0:ℚ)) (fun _ _ _ => [g]) (fun _ _ => [0])
          (1/10) 1 1 none
        = Except.ok (List.replicate n (-(1/10 * g)))) ∧
    (∀ (m : ℕ) (g : ℚ), 2 ≤ m →
      mini_batch_gradient_descent.optimize [()] [()] [(0:ℚ)]
          (fun _ _ _ => List.replicate m g) (fun _ _ => [0])
          (1/10) 1 1 none
        = Except.ok (List.replicate m (-(1/10 * g)))) ∧
    (∀ n m : ℕ, 2 ≤ n → 2 ≤ m → n ≠ m →
      mini_batch_gradient_descent.optimize [()] [()]
          (List.replicate n (0:ℚ)) (fun _ _ _ => List.replicate m 1)
          (fun _ _ => [0]) (1/10) 1 1 none
        = Except.error "ValueError") := by
  refine ⟨?_, ?_, ?_⟩
  · intro n g hn
    simp [mini_batch_gradient_descent.optimize,
      calculate_batch_size_and_iteration, pyTrunc, reindex,
      List.range_succ, List.foldlM]
    rw [npZip_right_singleton _ _ _ (by simp; omega)]
    simp
  · intro m g hm
    simp [mini_batch_gradient_descent.optimize,
      calculate_batch_size_and_iteration, pyTrunc, reindex,
      List.range_succ, List.foldlM]
    rw [npZip_left_singleton _ _ _ (by simp; omega)]
    simp
  · intro n m hn hm hnm
    simp [mini_batch_gradient_descent.optimize,
      calculate_batch_size_and_iteration, pyTrunc, reindex,
      List.range_succ, List.foldlM]
    rw [npZip_mismatch _ _ _ (by simp; omega) (by simp; omega)
      (by simp; omega)]

/-- Witness for `shape_mismatch_amended`: parameters of length 2 with a
length-1 gradient (broadcast onto the parameters), parameters of length
1 with a length-3 gradient (broadcast to the gradient's shape), and
parameters of length 2 with a length-3 gradient (numpy error). -/
theorem shape_mismatch_amended_witness :
    mini_batch_gradient_descent.optimize [()] [()]
        (List.replicate 2 (0:ℚ)) (fun _ _ _ => [5]) (fun _ _ => [0])
        (1/10) 1 1 none
      = Except.ok (List.replicate 2 (-(1/10 * 5))) ∧
    mini_batch_gradient_descent.optimize [()] [()] [(0:ℚ)]
        (fun _ _ _ => List.replicate 3 7) (fun _ _ => [0])
        (1/10) 1 1 none
      = Except.ok (List.replicate 3 (-(1/10 * 7))) ∧
    mini_batch_gradient_descent.optimize [()] [()]
        (List.replicate 2 (0:ℚ)) (fun _ _ _ => List.replicate 3 1)
        (fun _ _ => [0]) (1/10) 1 1 none
      = Except.error "ValueError" :=
  ⟨shape_mismatch_amended.1 2 5 (by norm_num),
    shape_mismatch_amended.2.1 3 7 (by norm_num),
    shape_mismatch_amended.2.2 2 3 (by norm_num) (by norm_num)
      (by norm_num)⟩

/-- C4: `adam.optimize` never applies the drawn permutation (the
reindexing is commented out in the source), so two runs differing only in
the randomness stream return identical final parameters — its trajectory
is independent of the randomness source.  In contrast, plain mini-batch
descent (representative of the other four algorithms, which all apply
the shuffle) returns different parameters for two different permutations
on a concrete order-sensitive run. -/
theorem adam_shuffle_independence :
    (∀ (α β : Type) (ia : Inhabited α) (ib : Inhabited β) (X : List α)
      (y : List β) (initial_solution : List ℝ)
      (nn : NeuralNetworkModel α β) (ub : Bool)
      (s₁ s₂ : ℕ → ℕ → List ℕ) (lr md sgd : ℝ) (ep : ℕ) (bsz : ℤ)
      (bf : Option ℚ) (eps : ℝ),
      @adam.optimize α β ia ib X y initial_solution nn ub s₁ lr md sgd ep
          bsz bf eps =
        @adam.optimize α β ia ib X y initial_solution nn ub s₂ lr md sgd
          ep bsz bf eps) ∧
    mini_batch_gradient_descent.optimize [(1:ℚ), 2] [(0:ℚ), 0] [(0:ℚ)]
        (fun Xs _ cur => [Xs.headI + cur.headI]) (fun _ _ => [0, 1]) 1 1
        2 none ≠
      mini_batch_gradient_descent.optimize [(1:ℚ), 2] [(0:ℚ), 0] [(0:ℚ)]
        (fun Xs _ cur => [Xs.headI + cur.headI]) (fun _ _ => [1, 0]) 1 1
        2 none := by
  constructor
  · exact fun _ _ _ _ _ _ _ _ _ _ _ _ _ _ _ _ _ _ => rfl
  · have h1 : mini_batch_gradient_descent.optimize [(1:ℚ), 2] [(0:ℚ), 0]
        [(0:ℚ)] (fun Xs _ cur => [Xs.headI + cur.headI])
        (fun _ _ => [0, 1]) 1 1 2 none = Except.ok [-1] := by
      simp [mini_batch_gradient_descent.optimize,
        calculate_batch_size_and_iteration, pyTrunc, npZip, reindex,
        List.range_succ, List.foldlM]
    have h2 : mini_batch_gradient_descent.optimize [(1:ℚ), 2] [(0:ℚ), 0]
        [(0:ℚ)] (fun Xs _ cur => [Xs.headI + cur.headI])
        (fun _ _ => [1, 0]) 1 1 2 none = Except.ok [-2] := by
      simp [mini_batch_gradient_descent.optimize,
        calculate_batch_size_and_iteration, pyTrunc, npZip, reindex,
        List.range_succ, List.foldlM]
    rw [h1, h2]
    simp

/-- C5: with a dataset of one sample, constant gradient `[1.0]`,
`learning_rate = 0.1`, one epoch, `batch_size = 1` (and the only
permutation of one row, `[0]`): plain descent returns `[-0.1]`, and
momentum with `momentum_decay = 0.5` ends with velocity `[-0.1]` and
returns parameters `[-0.1]`. -/
theorem single_sample_scenario :
    mini_batch_gradient_descent.optimize [()] [()] [(0:ℚ)]
        (fun _ _ _ => [1]) (fun _ _ => [0]) (1/10) 1 1 none
      = Except.ok [-(1/10)] ∧
    mini_batch_gradient_descent_with_momentum.optimizeState [()] [()]
        [(0:ℚ)] (fun _ _ _ => [1]) (fun _ _ => [0]) (1/10) (1/2) 1 1 none
      = Except.ok ([-(1/10)], [-(1/10)]) ∧
    mini_batch_gradient_descent_with_momentum.optimize [()] [()]
        [(0:ℚ)] (fun _ _ _ => [1]) (fun _ _ => [0]) (1/10) (1/2) 1 1 none
      = Except.ok [-(1/10)] := by
  refine ⟨?_, ?_, ?_⟩
  · simp [mini_batch_gradient_descent.optimize,
      calculate_batch_size_and_iteration, pyTrunc, npZip, reindex,
      List.range_succ, List.foldlM]
  · simp [mini_batch_gradient_descent_with_momentum.optimizeState,
      calculate_batch_size_and_iteration, pyTrunc, npZip, reindex,
      List.range_succ, List.foldlM, Except.instMonad, Except.bind,
      Except.map, Except.pure]
  · rw [mini_batch_gradient_descent_with_momentum.optimize]
    rw [show mini_batch_gradient_descent_with_momentum.optimizeState
        [()] [()] [(0:ℚ)] (fun _ _ _ => [1]) (fun _ _ => [0]) (1/10)
        (1/2) 1 1 none = Except.ok ([-(1/10)], [-(1/10)]) from ?_]
    · rfl
    · simp [mini_batch_gradient_descent_with_momentum.optimizeState,
        calculate_batch_size_and_iteration, pyTrunc, npZip, reindex,
        List.range_succ, List.foldlM, Except.instMonad, Except.bind,
        Except.map, Except.pure]

/-- C6: under a constant nonzero gradient stream, Adagrad's accumulator
`s` is non-decreasing from each step to the next, and consequently the
magnitude of the per-parameter move
`learning_rate * g / (sqrt s + epsilon)` is non-increasing from each
step to the next. -/
theorem adagrad_step_size_nonincreasing (lr eps g p0 : ℝ)
    (hlr : 0 < lr) (heps : 0 < eps) (hg : g ≠ 0) (t : ℕ) :
    (adagrad.scalarRun lr eps g p0 t).2 ≤
        (adagrad.scalarRun lr eps g p0 (t+1)).2 ∧
      |(adagrad.scalarRun lr eps g p0 (t+2)).1 -
          (adagrad.scalarRun lr eps g p0 (t+1)).1| ≤
        |(adagrad.scalarRun lr eps g p0 (t+1)).1 -
          (adagrad.scalarRun lr eps g p0 t).1| := by
  constructor
  · rw [adagrad_scalarRun_acc, adagrad_scalarRun_acc]
    push_cast
    nlinarith [sq_nonneg g]
  · rw [adagrad_scalarRun_delta, adagrad_scalarRun_delta]
    rw [abs_neg, abs_neg, abs_div, abs_div]
    push_cast
    have hd1 : (0:ℝ) < Real.sqrt (((t:ℝ)+1) * g ^ 2) + eps := by
      positivity
    have hd2 : (0:ℝ) < Real.sqrt (((t:ℝ)+1+1) * g ^ 2) + eps := by
      positivity
    rw [abs_of_pos hd1, abs_of_pos hd2]
    gcongr
    linarith

/-- Witness for `adagrad_step_size_nonincreasing` at
`lr = eps = g = 1`, `p0 = 0`, `t = 0`. -/
theorem adagrad_step_size_nonincreasing_witness :
    (adagrad.scalarRun 1 1 1 0 0).2 ≤ (adagrad.scalarRun 1 1 1 0 1).2 ∧
      |(adagrad.scalarRun 1 1 1 0 2).1 - (adagrad.scalarRun 1 1 1 0 1).1| ≤
        |(adagrad.scalarRun 1 1 1 0 1).1 - (adagrad.scalarRun 1 1 1 0 0).1| :=
  adagrad_step_size_nonincreasing 1 1 1 0 (by norm_num) (by norm_num)
    (by norm_num) 0

/-- C7: for every one of the five algorithms, a `batch_fraction` outside
`(0, 1]` makes `optimize` fail with the planner's configuration
assertion before the epoch loop starts — for every gradient source, which
is therefore never called. -/
theorem bad_batch_fraction_rejected :
    (∀ (α β : Type) (ia : Inhabited α) (ib : Inhabited β) (X : List α)
      (y : List β) (init : List ℚ) (grad : List α → List β → List ℚ → List ℚ)
      (shuffle : ℕ → ℕ → List ℕ) (lr : ℚ) (ep : ℕ) (bsz : ℤ) (f : ℚ),
      ¬ (0 < f ∧ f ≤ 1) →
      @mini_batch_gradient_descent.optimize α β ia ib X y init grad
          shuffle lr ep bsz (some f)
        = Except.error "batch_fraction must be between 0 and 1") ∧
    (∀ (α β : Type) (ia : Inhabited α) (ib : Inhabited β) (X : List α)
      (y : List β) (init : List ℚ) (grad : List α → List β → List ℚ → List ℚ)
      (shuffle : ℕ → ℕ → List ℕ) (lr md : ℚ) (ep : ℕ) (bsz : ℤ) (f : ℚ),
      ¬ (0 < f ∧ f ≤ 1) →
      @mini_batch_gradient_descent_with_momentum.optimize α β ia ib X y
          init grad shuffle lr md ep bsz (some f)
        = Except.error "batch_fraction must be between 0 and 1") ∧
    (∀ (α β : Type) (ia : Inhabited α) (ib : Inhabited β) (X : List α)
      (y : List β) (init : List ℝ) (grad : List α → List β → List ℝ → List ℝ)
      (shuffle : ℕ → ℕ → List ℕ) (lr : ℝ) (ep : ℕ) (bsz : ℤ) (f : ℚ)
      (eps : ℝ), ¬ (0 < f ∧ f ≤ 1) →
      @adagrad.optimize α β ia ib X y init grad shuffle lr ep bsz
          (some f) eps
        = Except.error "batch_fraction must be between 0 and 1") ∧
    (∀ (α β : Type) (ia : Inhabited α) (ib : Inhabited β) (X : List α)
      (y : List β) (init : List ℝ) (grad : List α → List β → List ℝ → List ℝ)
      (shuffle : ℕ → ℕ → List ℕ) (lr sgd : ℝ) (ep : ℕ) (bsz : ℤ) (f : ℚ)
      (eps : ℝ), ¬ (0 < f ∧ f ≤ 1) →
      @rmsprop.optimize α β ia ib X y init grad shuffle lr sgd ep bsz
          (some f) eps
        = Except.error "batch_fraction must be between 0 and 1") ∧
    (∀ (α β : Type) (ia : Inhabited α) (ib : Inhabited β) (X : List α)
      (y : List β) (init : List ℝ) (nn : NeuralNetworkModel α β)
      (ub : Bool) (shuffle : ℕ → ℕ → List ℕ) (lr md sgd : ℝ) (ep : ℕ)
      (bsz : ℤ) (f : ℚ) (eps : ℝ), ¬ (0 < f ∧ f ≤ 1) →
      @adam.optimize α β ia ib X y init nn ub shuffle lr md sgd ep bsz
          (some f) eps
        = Except.error "batch_fraction must be between 0 and 1") := by
  refine ⟨?_, ?_, ?_, ?_, ?_⟩
  · intro α β ia ib X y init grad shuffle lr ep bsz f hf
    unfold mini_batch_gradient_descent.optimize
    rw [batch_planner_bad_fraction _ _ _ hf]
  · intro α β ia ib X y init grad shuffle lr md ep bsz f hf
    unfold mini_batch_gradient_descent_with_momentum.optimize
      mini_batch_gradient_descent_with_momentum.optimizeState
    rw [batch_planner_bad_fraction _ _ _ hf]
    rfl
  · intro α β ia ib X y init grad shuffle lr ep bsz f eps hf
    unfold adagrad.optimize
    rw [batch_planner_bad_fraction _ _ _ hf]
  · intro α β ia ib X y init grad shuffle lr sgd ep bsz f eps hf
    unfold rmsprop.optimize
    rw [batch_planner_bad_fraction _ _ _ hf]
  · intro α β ia ib X y init nn ub shuffle lr md sgd ep bsz f eps hf
    unfold adam.optimize
    rw [batch_planner_bad_fraction _ _ _ hf]

/-- Witness for `bad_batch_fraction_rejected` at `batch_fraction = 3/2`
on a one-row dataset for each of the five algorithms. -/
theorem bad_batch_fraction_rejected_witness :
    mini_batch_gradient_descent.optimize [()] [()] [(0:ℚ)]
        (fun _ _ _ => [1]) (fun _ _ => [0]) (1/10) 1 1 (some (3/2))
      = Except.error "batch_fraction must be between 0 and 1" ∧
    mini_batch_gradient_descent_with_momentum.optimize [()] [()] [(0:ℚ)]
        (fun _ _ _ => [1]) (fun _ _ => [0]) (1/10) (1/2) 1 1 (some (3/2))
      = Except.error "batch_fraction must be between 0 and 1" ∧
    adagrad.optimize [()] [()] [(0:ℝ)] (fun _ _ _ => [1])
        (fun _ _ => [0]) (1/10) 1 1 (some (3/2)) (1/100000000)
      = Except.error "batch_fraction must be between 0 and 1" ∧
    rmsprop.optimize [()] [()] [(0:ℝ)] (fun _ _ _ => [1])
        (fun _ _ => [0]) (1/10) (99/100) 1 1 (some (3/2)) (1/100000000)
      = Except.error "batch_fraction must be between 0 and 1" ∧
    adam.optimize [()] [()] [(0:ℝ)] ⟨fun _ _ _ _ => [1]⟩ true
        (fun _ _ => [0]) (1/100) (9/10) (99/100) 1 10 (some (3/2))
        (1/100000000)
      = Except.error "batch_fraction must be between 0 and 1" := by
  have hf : ¬ ((0:ℚ) < 3/2 ∧ (3/2:ℚ) ≤ 1) := by norm_num
  exact ⟨bad_batch_fraction_rejected.1 Unit Unit _ _ _ _ _ _ _ _ _ _ _ hf,
    bad_batch_fraction_rejected.2.1 Unit Unit _ _ _ _ _ _ _ _ _ _ _ _ hf,
    bad_batch_fraction_rejected.2.2.1 Unit Unit _ _ _ _ _ _ _ _ _ _ _ _ hf,
    bad_batch_fraction_rejected.2.2.2.1 Unit Unit _ _ _ _ _ _ _ _ _ _ _ _ _ hf,
    bad_batch_fraction_rejected.2.2.2.2 Unit Unit _ _ _ _ _ _ _ _ _ _ _ _ _ _ _ hf⟩

/-- C8: for every optimizer, value semantics, gradient source and
randomness stream, the caller's input and target arrays (addresses below
the allocation frontier at entry) hold the same values after `optimize`
returns as before the call: each epoch's permutation allocates fresh
reindexed copies (and Adam's in-place-free loop reads them only), and
the one in-place write in the module targets Adagrad's freshly allocated
accumulator. -/
theorem optimize_preserves_caller_arrays :
    ∀ (V : Type) (ops : TensorOps V) (grad : V → V → V → V)
      (shuffle : ℕ → ℕ → List ℕ) (lr md sgd eps : ℚ)
      (epochs iterations bs aX aY aInit : ℕ) (s0 : Store V),
      aX < s0.next → aY < s0.next →
      ((mini_batch_gradient_descent.optimizeProg ops grad shuffle lr
            epochs iterations bs aX aY aInit s0).2.mem aX = s0.mem aX ∧
        (mini_batch_gradient_descent.optimizeProg ops grad shuffle lr
            epochs iterations bs aX aY aInit s0).2.mem aY = s0.mem aY) ∧
      ((mini_batch_gradient_descent_with_momentum.optimizeProg ops grad
            shuffle lr md epochs iterations bs aX aY aInit s0).2.mem aX
            = s0.mem aX ∧
        (mini_batch_gradient_descent_with_momentum.optimizeProg ops grad
            shuffle lr md epochs iterations bs aX aY aInit s0).2.mem aY
            = s0.mem aY) ∧
      ((adagrad.optimizeProg ops grad shuffle lr eps epochs iterations bs
            aX aY aInit s0).2.mem aX = s0.mem aX ∧
        (adagrad.optimizeProg ops grad shuffle lr eps epochs iterations
            bs aX aY aInit s0).2.mem aY = s0.mem aY) ∧
      ((rmsprop.optimizeProg ops grad shuffle lr sgd eps epochs
            iterations bs aX aY aInit s0).2.mem aX = s0.mem aX ∧
        (rmsprop.optimizeProg ops grad shuffle lr sgd eps epochs
            iterations bs aX aY aInit s0).2.mem aY = s0.mem aY) ∧
      ((adam.optimizeProg ops grad shuffle lr md sgd eps epochs
            iterations bs aX aY aInit s0).2.mem aX = s0.mem aX ∧
        (adam.optimizeProg ops grad shuffle lr md sgd eps epochs
            iterations bs aX aY aInit s0).2.mem aY = s0.mem aY) := by
  intro V ops grad shuffle lr md sgd eps epochs iterations bs aX aY aInit
    s0 hX hY
  have h1 := mini_batch_optimizeProg_frames
    (B := s0.next) ops grad shuffle lr epochs iterations bs aX aY aInit
    s0 (le_refl _)
  have h2 := momentum_optimizeProg_frames
    (B := s0.next) ops grad shuffle lr md epochs iterations bs aX aY
    aInit s0 (le_refl _)
  have h3 := adagrad_optimizeProg_frames (B := s0.next) ops grad
    shuffle lr eps epochs iterations bs aX aY aInit s0 (le_refl _)
  have h4 := rmsprop_optimizeProg_frames (B := s0.next) ops grad
    shuffle lr sgd eps epochs iterations bs aX aY aInit s0 (le_refl _)
  have h5 := adam_optimizeProg_frames (B := s0.next) ops grad shuffle
    lr md sgd eps epochs iterations bs aX aY aInit s0 (le_refl _)
  exact ⟨⟨h1.2 aX hX, h1.2 aY hY⟩, ⟨h2.2 aX hX, h2.2 aY hY⟩,
    ⟨h3.2 aX hX, h3.2 aY hY⟩, ⟨h4.2 aX hX, h4.2 aY hY⟩,
    ⟨h5.2 aX hX, h5.2 aY hY⟩⟩

/-- Degenerate array semantics over `ℕ`-valued arrays, used only to
instantiate the frame theorems at a concrete input. -/
def trivialTensorOps : TensorOps ℕ :=
  ⟨fun _ _ => 0, fun _ _ => 0, fun _ _ => 0, fun _ => 0, fun _ _ => 0,
    fun _ _ => 0, fun _ => 0, fun _ _ => 0, fun _ _ _ => 0, fun _ => 0⟩

/-- A three-array store: the caller's `X`, `y`, `initial_solution` at
addresses 0, 1, 2. -/
def witnessStore : Store ℕ :=
  ⟨fun a => a + 10, 3⟩

/-- Witness for `optimize_preserves_caller_arrays` at the degenerate
semantics, one epoch, one iteration. -/
theorem optimize_preserves_caller_arrays_witness :
    ((mini_batch_gradient_descent.optimizeProg trivialTensorOps
          (fun _ _ _ => 0) (fun _ _ => [0]) 1 1 1 1 0 1 2
          witnessStore).2.mem 0 = witnessStore.mem 0 ∧
      (mini_batch_gradient_descent.optimizeProg trivialTensorOps
          (fun _ _ _ => 0) (fun _ _ => [0]) 1 1 1 1 0 1 2
          witnessStore).2.mem 1 = witnessStore.mem 1) ∧
    ((mini_batch_gradient_descent_with_momentum.optimizeProg
          trivialTensorOps (fun _ _ _ => 0) (fun _ _ => [0]) 1 1 1 1 1 0
          1 2 witnessStore).2.mem 0 = witnessStore.mem 0 ∧
      (mini_batch_gradient_descent_with_momentum.optimizeProg
          trivialTensorOps (fun _ _ _ => 0) (fun _ _ => [0]) 1 1 1 1 1 0
          1 2 witnessStore).2.mem 1 = witnessStore.mem 1) ∧
    ((adagrad.optimizeProg trivialTensorOps (fun _ _ _ => 0)
          (fun _ _ => [0]) 1 1 1 1 1 0 1 2 witnessStore).2.mem 0
          = witnessStore.mem 0 ∧
      (adagrad.optimizeProg trivialTensorOps (fun _ _ _ => 0)
          (fun _ _ => [0]) 1 1 1 1 1 0 1 2 witnessStore).2.mem 1
          = witnessStore.mem 1) ∧
    ((rmsprop.optimizeProg trivialTensorOps (fun _ _ _ => 0)
          (fun _ _ => [0]) 1 1 1 1 1 1 0 1 2 witnessStore).2.mem 0
          = witnessStore.mem 0 ∧
      (rmsprop.optimizeProg trivialTensorOps (fun _ _ _ => 0)
          (fun _ _ => [0]) 1 1 1 1 1 1 0 1 2 witnessStore).2.mem 1
          = witnessStore.mem 1) ∧
    ((adam.optimizeProg trivialTensorOps (fun _ _ _ => 0)
          (fun _ _ => [0]) 1 1 1 1 1 1 1 0 1 2 witnessStore).2.mem 0
          = witnessStore.mem 0 ∧
      (adam.optimizeProg trivialTensorOps (fun _ _ _ => 0)
          (fun _ _ => [0]) 1 1 1 1 1 1 1 0 1 2 witnessStore).2.mem 1
          = witnessStore.mem 1) :=
  optimize_preserves_caller_arrays ℕ trivialTensorOps (fun _ _ _ => 0)
    (fun _ _ => [0]) 1 1 1 1 1 1 1 0 1 2 witnessStore
    (by norm_num [witnessStore]) (by norm_num [witnessStore])

/-- C9: the `optimize` entry points do not share the claimed uniform
defaults: the code's own docstrings say `batch_size` defaults to 1, but
`mini_batch_gradient_descent.optimize` declares `batch_size=42` and
`adam.optimize` declares `batch_size=10`.  Concretely, on a two-sample
dataset a call that leaves `batch_size` at the mini-batch default does
zero gradient steps per epoch (`int(2/42) = 0`) and returns the initial
parameters untouched, while the claimed default `batch_size = 1` performs
two updates. -/
theorem default_batch_size_divergence :
    mini_batch_default_batch_size = 42 ∧ adam_default_batch_size = 10 ∧
    mini_batch_gradient_descent.optimize [(), ()] [(), ()] [(0:ℚ)]
        (fun _ _ _ => [1]) (fun _ _ => [0, 1]) (1/10) 1
        mini_batch_default_batch_size none = Except.ok [0] ∧
    mini_batch_gradient_descent.optimize [(), ()] [(), ()] [(0:ℚ)]
        (fun _ _ _ => [1]) (fun _ _ => [0, 1]) (1/10) 1 1 none
      = Except.ok [-(1/5)] := by
  refine ⟨rfl, rfl, ?_, ?_⟩
  · have h : pyTrunc ((2:ℚ) / 42) = 0 := by norm_num [pyTrunc]
    simp [mini_batch_gradient_descent.optimize,
      mini_batch_default_batch_size, calculate_batch_size_and_iteration,
      pyTrunc, npZip, reindex, List.range_succ, List.foldlM,
      Except.instMonad, Except.bind, Except.map, Except.pure] at h ⊢
    simp [h]
    rfl
  · simp [mini_batch_gradient_descent.optimize,
      calculate_batch_size_and_iteration, pyTrunc, npZip, reindex,
      List.range_succ, List.foldlM, Except.instMonad, Except.bind,
      Except.map, Except.pure]
    norm_num

/-- C10: for every optimizer, the caller's `initial_solution` array is
never mutated in place: `current_solution` starts as an alias of it, but
every update rebinds `current_solution` to a freshly allocated array and
the accumulator initializations and updates touch only freshly allocated
tensors, so after the run the value at the `initial_solution` address is
its pre-call value. -/
theorem optimize_preserves_initial_solution :
    ∀ (V : Type) (ops : TensorOps V) (grad : V → V → V → V)
      (shuffle : ℕ → ℕ → List ℕ) (lr md sgd eps : ℚ)
      (epochs iterations bs aX aY aInit : ℕ) (s0 : Store V),
      aInit < s0.next →
      (mini_batch_gradient_descent.optimizeProg ops grad shuffle lr
          epochs iterations bs aX aY aInit s0).2.mem aInit
          = s0.mem aInit ∧
      (mini_batch_gradient_descent_with_momentum.optimizeProg ops grad
          shuffle lr md epochs iterations bs aX aY aInit s0).2.mem aInit
          = s0.mem aInit ∧
      (adagrad.optimizeProg ops grad shuffle lr eps epochs iterations bs
          aX aY aInit s0).2.mem aInit = s0.mem aInit ∧
      (rmsprop.optimizeProg ops grad shuffle lr sgd eps epochs iterations
          bs aX aY aInit s0).2.mem aInit = s0.mem aInit ∧
      (adam.optimizeProg ops grad shuffle lr md sgd eps epochs iterations
          bs aX aY aInit s0).2.mem aInit = s0.mem aInit := by
  intro V ops grad shuffle lr md sgd eps epochs iterations bs aX aY aInit
    s0 hInit
  exact ⟨(mini_batch_optimizeProg_frames
      (B := s0.next) ops grad shuffle lr epochs iterations bs aX aY aInit
      s0 (le_refl _)).2 aInit hInit,
    (momentum_optimizeProg_frames
      (B := s0.next) ops grad shuffle lr md epochs iterations bs aX aY
      aInit s0 (le_refl _)).2 aInit hInit,
    (adagrad_optimizeProg_frames (B := s0.next) ops grad shuffle lr
      eps epochs iterations bs aX aY aInit s0 (le_refl _)).2 aInit hInit,
    (rmsprop_optimizeProg_frames (B := s0.next) ops grad shuffle lr
      sgd eps epochs iterations bs aX aY aInit s0 (le_refl _)).2 aInit
      hInit,
    (adam_optimizeProg_frames (B := s0.next) ops grad shuffle lr md
      sgd eps epochs iterations bs aX aY aInit s0 (le_refl _)).2 aInit
      hInit⟩

/-- Witness for `optimize_preserves_initial_solution` at the degenerate
semantics, one epoch, one iteration. -/
theorem optimize_preserves_initial_solution_witness :
    (mini_batch_gradient_descent.optimizeProg trivialTensorOps
        (fun _ _ _ => 0) (fun _ _ => [0]) 1 1 1 1 0 1 2
        witnessStore).2.mem 2 = witnessStore.mem 2 ∧
    (mini_batch_gradient_descent_with_momentum.optimizeProg
        trivialTensorOps (fun _ _ _ => 0) (fun _ _ => [0]) 1 1 1 1 1 0 1
        2 witnessStore).2.mem 2 = witnessStore.mem 2 ∧
    (adagrad.optimizeProg trivialTensorOps (fun _ _ _ => 0)
        (fun _ _ => [0]) 1 1 1 1 1 0 1 2 witnessStore).2.mem 2
        = witnessStore.mem 2 ∧
    (rmsprop.optimizeProg trivialTensorOps (fun _ _ _ => 0)
        (fun _ _ => [0]) 1 1 1 1 1 1 0 1 2 witnessStore).2.mem 2
        = witnessStore.mem 2 ∧
    (adam.optimizeProg trivialTensorOps (fun _ _ _ => 0)
        (fun _ _ => [0]) 1 1 1 1 1 1 1 0 1 2 witnessStore).2.mem 2
        = witnessStore.mem 2 :=
  optimize_preserves_initial_solution ℕ trivialTensorOps (fun _ _ _ => 0)
    (fun _ _ => [0]) 1 1 1 1 1 1 1 0 1 2 witnessStore
    (by norm_num [witnessStore])
